import Mathlib

/-!
Verification development for the `drfexts` custom serializer fields
(`src/drfexts/serializers/fields.py`).

The Python code is shallowly embedded: Python runtime values are modelled by
`PyVal` (the dynamic values the fields actually handle: `None`, `str`, `int`,
`bool`), Python dicts by association lists with overwrite semantics (newest
binding first, lookup returns the first match), exceptions by `Except`, and
per-instance mutable state (the sequence counter, the `cached_property`
fields cache) by explicit state passing.  Each field class becomes a
namespace holding the embeddings of its methods under their source names.
-/

namespace Drfexts

/-- A Python runtime value, restricted to the shapes these fields handle. -/
inductive PyVal
  | none
  | str (s : String)
  | int (n : Int)
  | bool (b : Bool)
deriving DecidableEq, Repr

/-- Python `str(value)` on a `PyVal`. -/
def pyStr : PyVal → String
  | .none => "None"
  | .str s => s
  | .int n => toString n
  | .bool b => if b then "True" else "False"

/-- Python `==` on `PyVal`s.  Mirrors CPython equality on these types:
values of unrelated types are unequal, except that `bool` compares equal to
the corresponding `int` (`True == 1`, `False == 0`). -/
def pyEq : PyVal → PyVal → Bool
  | .none, .none => true
  | .str a, .str b => a = b
  | .int a, .int b => a = b
  | .bool a, .bool b => a = b
  | .int a, .bool b => a = (if b then (1 : Int) else 0)
  | .bool a, .int b => (if a then (1 : Int) else 0) = b
  | _, _ => false

/-- A Python dict with `String` keys, as an association list: `pySet`
prepends, `pyGet` returns the newest binding, which gives dict overwrite
semantics. -/
abbrev PyAssoc (α : Type) : Type := List (String × α)

/-- Python `d[k] = v` (note: the newest binding is the visible one). -/
def pySet {α : Type} (d : PyAssoc α) (k : String) (v : α) : PyAssoc α :=
  (k, v) :: d

/-- Python `d.get(k)` / `d[k]`: the newest binding for `k`, if any. -/
def pyGet {α : Type} : PyAssoc α → String → Option α
  | [], _ => Option.none
  | (k', v) :: d, k => if k = k' then some v else pyGet d k

/-- A Python dict keyed by arbitrary `PyVal`s (used for the choice mapping):
lookup compares the probe to stored keys with Python `==`. -/
def pyDictGetK : List (PyVal × PyVal) → PyVal → Option PyVal
  | [], _ => Option.none
  | (k, v) :: d, probe => if pyEq probe k then some v else pyDictGetK d probe

/-- Python `sep.join(parts)`. -/
def pyJoin (sep : String) : List String → String
  | [] => ""
  | [x] => x
  | x :: xs => x ++ sep ++ pyJoin sep xs

/-- `needle` occurs as a contiguous substring of `hay`. -/
def containsSub (needle hay : String) : Prop :=
  ∃ p s, hay.data = p ++ needle.data ++ s

namespace DisplayChoiceField

/-!
`DisplayChoiceField._set_choices` builds two derived mappings from the
configured `(value, label)` pairs (for flat choice lists,
`flatten_choices_dict(to_choices_dict(choices))` is the dict of those pairs,
so the configuration is embedded directly as the association list of pairs):
  * `values_to_choice_strings = dict(self.choices)` — keyed by the raw values
    themselves;
  * `choice_strings_to_values = {str(label): value}` — keyed by stringified
    labels.
-/

/-- `self.values_to_choice_strings = dict(self.choices)`: the raw-value-keyed
copy of the choices dict. -/
def values_to_choice_strings (choices : List (PyVal × PyVal)) : List (PyVal × PyVal) :=
  choices

/-- `self.choice_strings_to_values = \x7bstr(label): value ...\x7d`. -/
def choice_strings_to_values (choices : List (PyVal × PyVal)) : List (String × PyVal) :=
  choices.map fun vl => (pyStr vl.2, vl.1)

/-- `DisplayChoiceField.to_representation`: pass `""`/`None` through, else
look up `str(value)` in `values_to_choice_strings` (a dict keyed by the raw
values, probed with Python `==`), defaulting to `value` itself. -/
def to_representation (choices : List (PyVal × PyVal)) (value : PyVal) : PyVal :=
  if pyEq value (.str "") || pyEq value .none then value
  else (pyDictGetK (values_to_choice_strings choices) (.str (pyStr value))).getD value

/-- Modelled from the spec: the inherited base choice-handling inbound
contract ("maps a submitted label string back to its underlying raw value,
rejecting inputs not present in the configured choice set") — the base
class's `to_internal_value` is framework code outside this repository's
sources; it consults the repository-built `choice_strings_to_values` mapping
by `str(data)`. -/
def to_internal_value (choices : List (PyVal × PyVal)) (data : PyVal) : Except Unit PyVal :=
  match (choice_strings_to_values choices).lookup (pyStr data) with
  | some v => Except.ok v
  | Option.none => Except.error ()

end DisplayChoiceField

namespace IsNullField

/-- `IsNullField.to_representation`: `value is None`. -/
def to_representation (value : PyVal) : Bool :=
  match value with
  | .none => true
  | _ => false

end IsNullField

namespace IsNotNullField

/-- `IsNotNullField.to_representation`: `value is not None`. -/
def to_representation (value : PyVal) : Bool :=
  match value with
  | .none => false
  | _ => true

end IsNotNullField

namespace SequenceField

/-- The mutable per-instance counter attribute `_curval`: absent until the
first call (`getattr(self, "_curval", self.start)` then supplies `start`). -/
structure State where
  curval : Option Int
deriving DecidableEq, Repr

/-- A freshly constructed `SequenceField` instance: no `_curval` attribute. -/
def fresh : State := ⟨Option.none⟩

/-- `SequenceField._incr`: read `_curval` (defaulting to `start`), store
`curval + step`, return the value read. -/
def _incr (start step : Int) (s : State) : Int × State :=
  let curval := s.curval.getD start
  (curval, ⟨some (curval + step)⟩)

/-- `SequenceField.to_representation(self, value)`: ignores `value`, returns
`self._incr()`. -/
def to_representation (start step : Int) (_value : PyVal) (s : State) : Int × State :=
  _incr start step s

/-- The n-th successive `to_representation` call (counting from 0) on a fresh
instance, fed an arbitrary stream of input values: returns the output and the
state after that call. -/
def run (start step : Int) (vals : Nat → PyVal) : Nat → Int × State
  | 0 => to_representation start step (vals 0) fresh
  | n + 1 => to_representation start step (vals (n + 1)) (run start step vals n).2

end SequenceField

namespace MultiSlugRelatedField

/-- Outcome of the external lookup source's `.get(**data)` call: it returns
an instance, or raises `ObjectDoesNotExist`, `TypeError` or `ValueError`. -/
inductive QueryOutcome (α : Type)
  | found (x : α)
  | objectDoesNotExist
  | typeError
  | valueError

/-- The submitted inbound value: either not a mapping at all, or a mapping
of string keys to string values. -/
inductive SlugInput
  | notMapping
  | mapping (entries : List (String × String))

/-- Result of `to_internal_value`: a resolved instance, or a raised
`ValidationError` carrying the formatted message of the failed error key. -/
inductive SlugResult (α : Type)
  | failInvalid (msg : String)
  | failDoesNotExist (msg : String)
  | ok (x : α)

/-- `default_error_messages["invalid"]`. -/
def error_invalid : String := "Invalid value."

/-- `default_error_messages["does_not_exist"]` with `{error_msg}`
formatted in. -/
def error_does_not_exist (error_msg : String) : String :=
  "Object with " ++ error_msg ++ " does not exist."

/-- `set(data.keys()) == set(self.slug_fields)`. -/
def keySetEqb (a b : List String) : Bool :=
  a.all (fun k => b.contains k) && b.all (fun k => a.contains k)

/-- `MultiSlugRelatedField.to_internal_value`: reject non-mappings and
key-set mismatches as `invalid`; otherwise query the lookup source with the
submitted entries — `ObjectDoesNotExist` becomes `does_not_exist` with the
joined `field=value` lookup clauses, `TypeError`/`ValueError` become
`invalid`. -/
def to_internal_value {α : Type} (slug_fields : List String)
    (qs_get : List (String × String) → QueryOutcome α) (data : SlugInput) :
    SlugResult α :=
  match data with
  | .notMapping => .failInvalid error_invalid
  | .mapping entries =>
    if !keySetEqb (entries.map Prod.fst) slug_fields then .failInvalid error_invalid
    else
      match qs_get entries with
      | .found x => .ok x
      | .objectDoesNotExist =>
        let lookups := entries.map fun kv => pyJoin "=" [kv.1, kv.2]
        .failDoesNotExist (error_does_not_exist (pyJoin " " lookups))
      | .typeError => .failInvalid error_invalid
      | .valueError => .failInvalid error_invalid

/-- `MultiSlugRelatedField.to_representation`: the mapping from each slug
field name to the corresponding attribute of the resolved object (attributes
supplied as a total map, as `getattr` is assumed to succeed here in the
source). -/
def to_representation (slug_fields : List String) (attr : String → String) :
    List (String × String) :=
  slug_fields.map fun f => (f, attr f)

end MultiSlugRelatedField

/-- A Python exception, as raised by the embedded `ComplexPKRelatedField`
methods. -/
inductive PyExc
  | attributeError (name : String)
  | keyError (name : String)
deriving DecidableEq, Repr

/-- A related model instance: its primary key, its plain attributes, and its
`str()` form. -/
structure PyObj where
  pk : PyVal
  attrs : List (String × PyVal)
  strForm : String
deriving DecidableEq, Repr

/-- Python `getattr(obj, name)` as a partial lookup. -/
def pyGetattr (o : PyObj) (name : String) : Option PyVal :=
  o.attrs.lookup name

/-- The serializer field class selected by
`ClassLookupDict(serializers.ModelSerializer.serializer_field_mapping)` for a
model field. -/
inductive SFieldClass
  | char
  | integer
  | boolean
  | other (clsName : String)
deriving DecidableEq, Repr

/-- A field of the related model's metadata (`model._meta.get_field(...)`):
its mapped serializer field class, `verbose_name` and `help_text`. -/
structure ModelField where
  serializer_field : SFieldClass
  verbose_name : String
  help_text : String
deriving DecidableEq, Repr

/-- The related model's metadata: a name-indexed collection of fields.
(`get_fields` resolves this model from `self.queryset` or from the parent
serializer's `Meta.model`; that resolution is taken as an input here.) -/
structure ModelMeta where
  model_fields : List (String × ModelField)
deriving DecidableEq, Repr

/-- `model._meta.get_field(name)`: `none` models `FieldDoesNotExist`. -/
def metaGetField (m : ModelMeta) (name : String) : Option ModelField :=
  m.model_fields.lookup name

/-- A serializer field instance synthesized by
`ComplexPKRelatedField.get_fields`. -/
structure SynthField where
  field_cls : SFieldClass
  source : Option String
  read_only : Bool
  label : Option String
  help_text : Option String
deriving DecidableEq, Repr

namespace ComplexPKRelatedField

/-- Configuration of a `ComplexPKRelatedField` instance (constructor
arguments; `fields` is stored as `self.extra_fields`). -/
structure Config where
  pk_field_name : String
  display_field : Option String
  display_field_name : String
  extra_fields : List String
deriving DecidableEq, Repr

/-- `serializers.CharField(source=self.display_field, read_only=True)`. -/
def displayCharField (src : String) : SynthField :=
  ⟨SFieldClass.char, some src, true, Option.none, Option.none⟩

/-- `field_mapping[model_field](read_only=True, label=model_field.verbose_name,
help_text=model_field.help_text)`. -/
def mappedField (mf : ModelField) : SynthField :=
  ⟨mf.serializer_field, Option.none, true, some mf.verbose_name, some mf.help_text⟩

/-- The `for field_name in self.extra_fields` loop of `get_fields`: skip the
primary-key name, skip names missing from the model metadata
(`FieldDoesNotExist` → `continue`), otherwise assign the mapped read-only
field under the attribute's own name. -/
def addExtraFields (m : ModelMeta) (pk_field_name : String) :
    List String → PyAssoc SynthField → PyAssoc SynthField
  | [], fs => fs
  | f :: rest, fs =>
    if f = pk_field_name then addExtraFields m pk_field_name rest fs
    else
      match metaGetField m f with
      | Option.none => addExtraFields m pk_field_name rest fs
      | some mf => addExtraFields m pk_field_name rest (pySet fs f (mappedField mf))

/-- `ComplexPKRelatedField.get_fields`: start from an empty dict; if
`self.display_field` is truthy and not among `self.extra_fields`, assign a
read-only `CharField` sourced at the display attribute under
`self.display_field_name`; then process `self.extra_fields`. -/
def get_fields (m : ModelMeta) (cfg : Config) : PyAssoc SynthField :=
  let fields : PyAssoc SynthField := []
  let fields :=
    match cfg.display_field with
    | some d =>
      if d ≠ "" ∧ d ∉ cfg.extra_fields then
        pySet fields cfg.display_field_name (displayCharField d)
      else fields
    | Option.none => fields
  addExtraFields m cfg.pk_field_name cfg.extra_fields fields

/-- The per-instance state behind the `@cached_property fields` accessor:
the cached dict (absent until first access) plus an instrumentation counter
of how many times the underlying computation ran. -/
structure CacheState where
  cachedFields : Option (PyAssoc SynthField)
  computeCount : Nat
deriving DecidableEq, Repr

/-- A freshly constructed field instance: nothing cached yet. -/
def freshCache : CacheState := ⟨Option.none, 0⟩

/-- The `fields` accessor (`functools.cached_property` semantics): on first
access compute `get_fields()` and store it on the instance (the `BindingDict`
wrapper binds each entry to the parent and holds exactly the `get_fields`
entries, so it is represented by that dict); afterwards return the stored
object unchanged. -/
def fieldsAccess (m : ModelMeta) (cfg : Config) (s : CacheState) :
    PyAssoc SynthField × CacheState :=
  match s.cachedFields with
  | some d => (d, s)
  | Option.none =>
    let d := get_fields m cfg
    (d, ⟨some d, s.computeCount + 1⟩)

/-- The inbound submitted value for `ComplexPKRelatedField`: a bare value
(whose subscription raises `TypeError`) or a mapping. -/
inductive PKInput
  | bare (v : PyVal)
  | mapping (entries : PyAssoc PyVal)

/-- `ComplexPKRelatedField.to_internal_value`: try `data[self.pk_field_name]`
— a `TypeError` (bare value) is suppressed, leaving `data` unchanged; a
missing key in a mapping raises `KeyError`, which is not caught; the
(possibly unwrapped) value is delegated to the base field's
`to_internal_value`. -/
def to_internal_value {α : Type} (pk_field_name : String)
    (base : PyVal → Except PyExc α) (data : PKInput) : Except PyExc α :=
  match data with
  | .bare v => base v
  | .mapping entries =>
    match pyGet entries pk_field_name with
    | some v => base v
    | Option.none => Except.error (PyExc.keyError pk_field_name)

/-- Modelled from the spec: the base primary-key relation field's outbound
contract "resolves the primary key via the base field's contract" — the
base class's `to_representation` is framework code outside this repository's
sources; it yields the related object's primary key. -/
def pk_to_representation (value : PyObj) : PyVal :=
  value.pk

/-- The `attr_obj` resolution at the top of `to_representation`:
`get_attribute(self.instance, self.source_attrs)` with an `AttributeError`
fallback to `value`.  The `get_attribute` outcome is an input
(`Except.error` models the raised `AttributeError`). -/
def resolveAttrObj (instance_lookup : Except Unit PyObj) (value : PyObj) : PyObj :=
  match instance_lookup with
  | Except.ok o => o
  | Except.error _ => value

/-- Python `getattr` with the `AttributeError` it raises when absent. -/
def getattrE (o : PyObj) (name : String) : Except PyExc PyVal :=
  match pyGetattr o name with
  | some v => Except.ok v
  | Option.none => Except.error (PyExc.attributeError name)

/-- The display-label step of `to_representation`: when
`self.display_field_name not in self.extra_fields`, assign
`getattr(attr_obj, self.display_field)` (when the display field is truthy)
or `str(attr_obj)` under `self.display_field_name`. -/
def displayStep (cfg : Config) (attr_obj : PyObj) (data : PyAssoc PyVal) :
    Except PyExc (PyAssoc PyVal) :=
  if cfg.display_field_name ∈ cfg.extra_fields then Except.ok data
  else
    match cfg.display_field with
    | some d =>
      if d = "" then
        Except.ok (pySet data cfg.display_field_name (PyVal.str attr_obj.strForm))
      else
        match pyGetattr attr_obj d with
        | some v => Except.ok (pySet data cfg.display_field_name v)
        | Option.none => Except.error (PyExc.attributeError d)
    | Option.none =>
      Except.ok (pySet data cfg.display_field_name (PyVal.str attr_obj.strForm))

/-- The `for field_name in self.extra_fields` loop of `to_representation`:
`data[field_name] = getattr(attr_obj, field_name)`, an absent attribute
raising `AttributeError`. -/
def setExtraAttrs (attr_obj : PyObj) :
    List String → PyAssoc PyVal → Except PyExc (PyAssoc PyVal)
  | [], d => Except.ok d
  | f :: fs, d =>
    match pyGetattr attr_obj f with
    | some v => setExtraAttrs attr_obj fs (pySet d f v)
    | Option.none => Except.error (PyExc.attributeError f)

/-- `ComplexPKRelatedField.to_representation`: resolve `attr_obj`, start the
output dict with the resolved primary key under `self.pk_field_name`, run
the display step, then copy each extra attribute under its own name. -/
def to_representation (cfg : Config) (instance_lookup : Except Unit PyObj)
    (value : PyObj) : Except PyExc (PyAssoc PyVal) :=
  let attr_obj := resolveAttrObj instance_lookup value
  let data := pySet [] cfg.pk_field_name (pk_to_representation value)
  match displayStep cfg attr_obj data with
  | Except.ok d2 => setExtraAttrs attr_obj cfg.extra_fields d2
  | Except.error e => Except.error e

end ComplexPKRelatedField

/-! Concrete configurations used to instantiate the claims. -/

/-- Choice configuration `[("a", "A")]` (string raw values). -/
def choicesC7w : List (PyVal × PyVal) := [(PyVal.str "a", PyVal.str "A")]

/-- A lookup source whose `.get` always raises `ObjectDoesNotExist`. -/
def qsC3w : List (String × String) → MultiSlugRelatedField.QueryOutcome Nat :=
  fun _ => MultiSlugRelatedField.QueryOutcome.objectDoesNotExist

/-- The `does_not_exist` message produced for the lookup
`{"code": "A1", "region": "US"}`. -/
def msgC3w : String := "Object with code=A1 region=US does not exist."

/-- A related model with a single `name` field. -/
def modelC2x : ModelMeta := ⟨[("name", ⟨SFieldClass.char, "Name", ""⟩)]⟩

/-- `ComplexPKRelatedField(display_field="name", fields=["name"])`: the
display output key `label` is not among the extra fields, but the display
attribute `name` is. -/
def cfgC2x : ComplexPKRelatedField.Config := ⟨"id", some "name", "label", ["name"]⟩

/-- A related model with no fields. -/
def modelC2w : ModelMeta := ⟨[]⟩

/-- `ComplexPKRelatedField(display_field="name")` with no extra fields. -/
def cfgC2w : ComplexPKRelatedField.Config := ⟨"id", some "name", "label", []⟩

/-- A related model with no fields. -/
def modelC9w : ModelMeta := ⟨[]⟩

/-- `ComplexPKRelatedField(fields=["ghost"])` requesting an attribute the
related model does not have. -/
def cfgC9w : ComplexPKRelatedField.Config := ⟨"id", Option.none, "label", ["ghost"]⟩

/-- A base `to_internal_value` that accepts any value. -/
def baseC10w : PyVal → Except PyExc PyVal := Except.ok

/-- An object whose `key` attribute (42) differs from its primary key (7). -/
def objC5x : PyObj := ⟨PyVal.int 7, [("key", PyVal.int 42)], "obj7"⟩

/-- `ComplexPKRelatedField(pk_field_name="key", fields=["key"])`: the
primary-key output name is itself an extra attribute name. -/
def cfgC5x : ComplexPKRelatedField.Config := ⟨"key", Option.none, "label", ["key"]⟩

/-- The output dict `to_representation` produces for `cfgC5x`/`objC5x`
(newest binding first): the extra attribute overwrote the primary key. -/
def dC5x : PyAssoc PyVal :=
  [("key", PyVal.int 42), ("label", PyVal.str "obj7"), ("key", PyVal.int 7)]

/-- An object with `name`/`status` attributes, primary key 3 and `str` form
`"Obj3"`. -/
def objC5w : PyObj :=
  ⟨PyVal.int 3, [("name", PyVal.str "N"), ("status", PyVal.int 1)], "Obj3"⟩

/-- `ComplexPKRelatedField(fields=["name", "status"])` with no explicit
display field (the spec's own example). -/
def cfgC5w : ComplexPKRelatedField.Config := ⟨"id", Option.none, "label", ["name", "status"]⟩

/-- The output dict `to_representation` produces for `cfgC5w`/`objC5w`
(newest binding first). -/
def dC5w : PyAssoc PyVal :=
  [("status", PyVal.int 1), ("name", PyVal.str "N"),
   ("label", PyVal.str "Obj3"), ("id", PyVal.int 3)]

end Drfexts

namespace Drfexts

/-! Helper lemmas about the dict embedding. -/

/-- Looking up the key just assigned yields the assigned value. -/
theorem pyGet_pySet_self {α : Type} (d : PyAssoc α) (k : String) (v : α) :
    pyGet (pySet d k v) k = some v := by
  simp [pyGet, pySet]

/-- Assigning one key leaves lookups of other keys unchanged. -/
theorem pyGet_pySet_other {α : Type} (d : PyAssoc α) (k k' : String) (v : α)
    (h : k' ≠ k) : pyGet (pySet d k v) k' = pyGet d k' := by
  simp [pyGet, pySet, h]

/-- Every element of a joined list occurs as a substring of the join. -/
theorem containsSub_pyJoin (sep : String) {l : List String} {x : String}
    (hx : x ∈ l) : containsSub x (pyJoin sep l) := by
  induction l with
  | nil => cases hx
  | cons y ys ih =>
    cases ys with
    | nil =>
      rcases List.mem_singleton.mp hx with rfl
      exact ⟨[], [], by simp [pyJoin]⟩
    | cons z zs =>
      rcases List.mem_cons.mp hx with rfl | hmem
      · exact ⟨[], (sep ++ pyJoin sep (z :: zs)).data,
          by simp [pyJoin, String.data_append]⟩
      · obtain ⟨p, s, hp⟩ := ih hmem
        exact ⟨(y ++ sep).data ++ p, s,
          by simp [pyJoin, String.data_append, hp]⟩

/-- A substring of `J` is a substring of `a ++ J ++ b`. -/
theorem containsSub_wrap {x J a b : String} (h : containsSub x J) :
    containsSub x (a ++ J ++ b) := by
  obtain ⟨p, s, hp⟩ := h
  exact ⟨a.data ++ p, s ++ b.data, by simp [String.data_append, hp]⟩

/-- The extra-fields loop of `get_fields` only ever assigns keys from its
list: other keys are unchanged. -/
theorem addExtraFields_pyGet_not_mem (m : ModelMeta) (pk : String)
    (l : List String) (fs : PyAssoc SynthField) (k : String) (hk : k ∉ l) :
    pyGet (ComplexPKRelatedField.addExtraFields m pk l fs) k = pyGet fs k := by
  induction l generalizing fs with
  | nil => rfl
  | cons f rest ih =>
    have hne : k ≠ f := fun h => hk (h ▸ List.mem_cons_self f rest)
    have hrest : k ∉ rest := fun h => hk (List.mem_cons_of_mem f h)
    rw [ComplexPKRelatedField.addExtraFields]
    by_cases hfpk : f = pk
    · rw [if_pos hfpk]; exact ih _ hrest
    · rw [if_neg hfpk]
      cases hmf : metaGetField m f with
      | none => exact ih _ hrest
      | some mf => rw [ih _ hrest, pyGet_pySet_other _ _ _ _ hne]

/-- The extra-fields loop of `get_fields` never assigns a key that is not a
field of the related model. -/
theorem addExtraFields_pyGet_unknown (m : ModelMeta) (pk : String)
    (l : List String) (fs : PyAssoc SynthField) (k : String)
    (hm : metaGetField m k = Option.none) :
    pyGet (ComplexPKRelatedField.addExtraFields m pk l fs) k = pyGet fs k := by
  induction l generalizing fs with
  | nil => rfl
  | cons f rest ih =>
    rw [ComplexPKRelatedField.addExtraFields]
    by_cases hfpk : f = pk
    · rw [if_pos hfpk]; exact ih _
    · rw [if_neg hfpk]
      cases hmf : metaGetField m f with
      | none => exact ih _
      | some mf =>
        have hne : k ≠ f := by
          intro h
          rw [h, hmf] at hm
          cases hm
        rw [ih _, pyGet_pySet_other _ _ _ _ hne]

/-- The extra-attributes loop of `to_representation` only assigns keys from
its list. -/
theorem setExtraAttrs_pyGet_not_mem (o : PyObj) (l : List String)
    (d0 d : PyAssoc PyVal) (h : ComplexPKRelatedField.setExtraAttrs o l d0 = Except.ok d)
    (k : String) (hk : k ∉ l) : pyGet d k = pyGet d0 k := by
  induction l generalizing d0 with
  | nil =>
    injection h with h'
    rw [← h']
  | cons f fs ih =>
    have hne : k ≠ f := fun hcontra => hk (hcontra ▸ List.mem_cons_self f fs)
    have hfs : k ∉ fs := fun hcontra => hk (List.mem_cons_of_mem f hcontra)
    rw [ComplexPKRelatedField.setExtraAttrs] at h
    cases hga : pyGetattr o f with
    | none => rw [hga] at h; cases h
    | some v =>
      rw [hga] at h
      rw [ih _ h hfs, pyGet_pySet_other _ _ _ _ hne]

/-- After the extra-attributes loop succeeds, every listed key holds the
corresponding attribute of the object. -/
theorem setExtraAttrs_pyGet_mem (o : PyObj) (l : List String)
    (d0 d : PyAssoc PyVal) (h : ComplexPKRelatedField.setExtraAttrs o l d0 = Except.ok d)
    (f : String) (hf : f ∈ l) : pyGet d f = pyGetattr o f := by
  induction l generalizing d0 with
  | nil => cases hf
  | cons g gs ih =>
    rw [ComplexPKRelatedField.setExtraAttrs] at h
    cases hga : pyGetattr o g with
    | none => rw [hga] at h; cases h
    | some v =>
      rw [hga] at h
      by_cases hmem : f ∈ gs
      · exact ih _ h hmem
      · have hfg : f = g := by
          rcases List.mem_cons.mp hf with h1 | h2
          · exact h1
          · exact absurd h2 hmem
        subst hfg
        rw [setExtraAttrs_pyGet_not_mem o gs _ _ h f hmem, pyGet_pySet_self, hga]

/-- The display step only ever assigns `display_field_name`: other keys are
unchanged. -/
theorem displayStep_pyGet_other (cfg : ComplexPKRelatedField.Config) (o : PyObj)
    (data d2 : PyAssoc PyVal)
    (h : ComplexPKRelatedField.displayStep cfg o data = Except.ok d2)
    (k : String) (hk : k ≠ cfg.display_field_name) : pyGet d2 k = pyGet data k := by
  rw [ComplexPKRelatedField.displayStep] at h
  by_cases hin : cfg.display_field_name ∈ cfg.extra_fields
  · rw [if_pos hin] at h
    injection h with h'
    rw [← h']
  · rw [if_neg hin] at h
    cases hdf : cfg.display_field with
    | none =>
      simp only [hdf] at h
      injection h with h'
      rw [← h', pyGet_pySet_other _ _ _ _ hk]
    | some dd =>
      simp only [hdf] at h
      by_cases hdd : dd = ""
      · rw [if_pos hdd] at h
        injection h with h'
        rw [← h', pyGet_pySet_other _ _ _ _ hk]
      · rw [if_neg hdd] at h
        cases hga : pyGetattr o dd with
        | none => rw [hga] at h; cases h
        | some v =>
          rw [hga] at h
          injection h with h'
          rw [← h', pyGet_pySet_other _ _ _ _ hk]

/-- When the display key is not among the extra fields, the display step
stores the display attribute's value (truthy display field) or the `str`
form of the object (no or empty display field) under the display key. -/
theorem displayStep_pyGet_display (cfg : ComplexPKRelatedField.Config) (o : PyObj)
    (data d2 : PyAssoc PyVal)
    (h : ComplexPKRelatedField.displayStep cfg o data = Except.ok d2)
    (hdfn : cfg.display_field_name ∉ cfg.extra_fields) :
    (∀ dd, cfg.display_field = some dd → dd ≠ "" →
      pyGet d2 cfg.display_field_name = pyGetattr o dd)
    ∧ ((cfg.display_field = Option.none ∨ cfg.display_field = some "") →
      pyGet d2 cfg.display_field_name = some (PyVal.str o.strForm)) := by
  rw [ComplexPKRelatedField.displayStep, if_neg hdfn] at h
  constructor
  · intro dd hdf hdd
    simp only [hdf] at h
    rw [if_neg hdd] at h
    cases hga : pyGetattr o dd with
    | none => rw [hga] at h; cases h
    | some v =>
      rw [hga] at h
      injection h with h'
      rw [← h', pyGet_pySet_self]
  · intro hdf
    rcases hdf with hdf | hdf
    · simp only [hdf] at h
      injection h with h'
      rw [← h', pyGet_pySet_self]
    · simp only [hdf, if_true] at h
      injection h with h'
      rw [← h', pyGet_pySet_self]

/-- The state after the n-th call holds `start + (n+1)*step`, and the n-th
output is `start + n*step`. -/
theorem SequenceField.run_spec (start step : Int) (vals : Nat → PyVal) (n : Nat) :
    (SequenceField.run start step vals n).1 = start + n * step ∧
      (SequenceField.run start step vals n).2 = ⟨some (start + (n + 1) * step)⟩ := by
  induction n with
  | zero =>
    constructor
    · simp [SequenceField.run, SequenceField.to_representation, SequenceField._incr,
        SequenceField.fresh]
    · simp [SequenceField.run, SequenceField.to_representation, SequenceField._incr,
        SequenceField.fresh]
  | succ n ih =>
    rw [SequenceField.run, SequenceField.to_representation, SequenceField._incr, ih.2]
    simp only [Option.getD_some, SequenceField.State.mk.injEq, Option.some.injEq]
    constructor
    · push_cast; ring
    · push_cast; ring

/-- C4: for every start and step, the n-th successive call of
`to_representation` on a fresh `SequenceField` instance (counting from 0)
returns `start + n*step`, regardless of the input values passed. -/
theorem c4_sequence_field_outputs (start step : Int) (vals : Nat → PyVal) (n : Nat) :
    (SequenceField.run start step vals n).1 = start + n * step :=
  (SequenceField.run_spec start step vals n).1

/-- C6: `IsNullField.to_representation` returns true exactly when the value
is `None`, and `IsNotNullField.to_representation` is its exact logical
complement on every input. -/
theorem c6_is_null_fields (v : PyVal) :
    IsNullField.to_representation v = decide (v = PyVal.none) ∧
      IsNotNullField.to_representation v = !IsNullField.to_representation v := by
  cases v <;> simp [IsNullField.to_representation, IsNotNullField.to_representation]

/-- C1: the round-trip claim fails on the code for the integer choice
mapping `{1: "One"}`: outbound conversion of the raw value `1` looks up
`str(1) = "1"` in a dict keyed by the raw value `1` itself, misses, and
returns `1` unchanged instead of the label `"One"` — although inbound
conversion of the label does return the raw value. -/
theorem c1_outbound_misses_integer_choice :
    DisplayChoiceField.to_representation [(PyVal.int 1, PyVal.str "One")] (PyVal.int 1) =
      PyVal.int 1
    ∧ PyVal.int 1 ≠ PyVal.str "One"
    ∧ DisplayChoiceField.to_internal_value [(PyVal.int 1, PyVal.str "One")]
        (PyVal.str "One") = Except.ok (PyVal.int 1) :=
  ⟨by decide, by decide, rfl⟩

/-- C7: `DisplayChoiceField.to_representation` passes the empty string and
`None` through unchanged, and returns any value with no mapping entry
unchanged (the outbound path is a total function — it raises nothing). -/
theorem c7_display_choice_passthrough (choices : List (PyVal × PyVal)) :
    DisplayChoiceField.to_representation choices (PyVal.str "") = PyVal.str ""
    ∧ DisplayChoiceField.to_representation choices PyVal.none = PyVal.none
    ∧ ∀ v, pyDictGetK (DisplayChoiceField.values_to_choice_strings choices)
        (PyVal.str (pyStr v)) = Option.none →
        DisplayChoiceField.to_representation choices v = v := by
  refine ⟨rfl, rfl, fun v h => ?_⟩
  rw [DisplayChoiceField.to_representation]
  split
  · rfl
  · rw [h]
    rfl

/-- C7 witness: instantiated at the mapping `[("a", "A")]` and the unmapped
value `5`. -/
theorem c7_witness :
    DisplayChoiceField.to_representation choicesC7w (PyVal.str "") = PyVal.str ""
    ∧ DisplayChoiceField.to_representation choicesC7w PyVal.none = PyVal.none
    ∧ DisplayChoiceField.to_representation choicesC7w (PyVal.int 5) = PyVal.int 5 :=
  ⟨(c7_display_choice_passthrough choicesC7w).1,
   (c7_display_choice_passthrough choicesC7w).2.1,
   (c7_display_choice_passthrough choicesC7w).2.2 (PyVal.int 5) (by decide)⟩

/-- C3: `MultiSlugRelatedField.to_internal_value` fails with the `invalid`
error for non-mappings, mismatched key sets, and `TypeError`/`ValueError`
from the lookup source; and fails with `does_not_exist` when a well-formed
lookup matches no object, with a message containing each `field=value`
lookup clause. -/
theorem c3_multi_slug_inbound_errors {α : Type} (slug_fields : List String)
    (qs_get : List (String × String) → MultiSlugRelatedField.QueryOutcome α) :
    MultiSlugRelatedField.to_internal_value slug_fields qs_get .notMapping =
      .failInvalid MultiSlugRelatedField.error_invalid
    ∧ (∀ entries,
        MultiSlugRelatedField.keySetEqb (entries.map Prod.fst) slug_fields = false →
        MultiSlugRelatedField.to_internal_value slug_fields qs_get (.mapping entries) =
          .failInvalid MultiSlugRelatedField.error_invalid)
    ∧ (∀ entries,
        MultiSlugRelatedField.keySetEqb (entries.map Prod.fst) slug_fields = true →
        qs_get entries = .typeError →
        MultiSlugRelatedField.to_internal_value slug_fields qs_get (.mapping entries) =
          .failInvalid MultiSlugRelatedField.error_invalid)
    ∧ (∀ entries,
        MultiSlugRelatedField.keySetEqb (entries.map Prod.fst) slug_fields = true →
        qs_get entries = .valueError →
        MultiSlugRelatedField.to_internal_value slug_fields qs_get (.mapping entries) =
          .failInvalid MultiSlugRelatedField.error_invalid)
    ∧ (∀ entries,
        MultiSlugRelatedField.keySetEqb (entries.map Prod.fst) slug_fields = true →
        qs_get entries = .objectDoesNotExist →
        MultiSlugRelatedField.to_internal_value slug_fields qs_get (.mapping entries) =
          .failDoesNotExist (MultiSlugRelatedField.error_does_not_exist
            (pyJoin " " (entries.map fun kv => pyJoin "=" [kv.1, kv.2])))
        ∧ ∀ kv ∈ entries,
            containsSub (kv.1 ++ "=" ++ kv.2)
              (MultiSlugRelatedField.error_does_not_exist
                (pyJoin " " (entries.map fun kv => pyJoin "=" [kv.1, kv.2])))) := by
  refine ⟨rfl, fun entries hks => ?_, fun entries hks hq => ?_,
    fun entries hks hq => ?_, fun entries hks hq => ?_⟩
  · simp [MultiSlugRelatedField.to_internal_value, hks]
  · simp [MultiSlugRelatedField.to_internal_value, hks, hq]
  · simp [MultiSlugRelatedField.to_internal_value, hks, hq]
  · refine ⟨by simp [MultiSlugRelatedField.to_internal_value, hks, hq], ?_⟩
    intro kv hkv
    have hmem : pyJoin "=" [kv.1, kv.2] ∈ entries.map fun kv => pyJoin "=" [kv.1, kv.2] :=
      List.mem_map_of_mem _ hkv
    have hJ := containsSub_pyJoin " " hmem
    have : containsSub (kv.1 ++ "=" ++ kv.2)
        (pyJoin " " (entries.map fun kv => pyJoin "=" [kv.1, kv.2])) := by
      rw [show pyJoin "=" [kv.1, kv.2] = kv.1 ++ "=" ++ kv.2 from rfl] at hJ
      exact hJ
    exact containsSub_wrap this

/-- C3 witness: slug fields `{"code", "region"}`, submitted value
`{"code": "A1", "region": "US"}`, lookup source finding nothing: the failure
is `does_not_exist` and its message contains `code=A1` and `region=US`. -/
theorem c3_witness :
    MultiSlugRelatedField.to_internal_value ["code", "region"] qsC3w
      (.mapping [("code", "A1"), ("region", "US")]) =
      .failDoesNotExist msgC3w
    ∧ containsSub "code=A1" msgC3w
    ∧ containsSub "region=US" msgC3w := by
  have h := (c3_multi_slug_inbound_errors ["code", "region"] qsC3w).2.2.2.2
    [("code", "A1"), ("region", "US")] (by decide) rfl
  refine ⟨h.1, ?_, ?_⟩
  · exact h.2 ("code", "A1") (by simp)
  · exact h.2 ("region", "US") (by simp)

/-- C2 counterexample: with `display_field="name"`, extra fields
`["name"]` and display output key `"label"`, the display output key is not
among the extra attribute names, yet no field is synthesized under it —
the code's condition tests the display attribute name, not the display
output key. -/
theorem c2_counterexample :
    cfgC2x.display_field_name ∉ cfgC2x.extra_fields
    ∧ pyGet (ComplexPKRelatedField.get_fields modelC2x cfgC2x)
        cfgC2x.display_field_name = Option.none :=
  ⟨by decide, by decide⟩

/-- C2 (amended): whenever a display attribute is configured (truthy) and
that display attribute is not among the extra attribute names — and the
display output key is not among the extra attribute names either, so the
extra-fields loop cannot overwrite it — `get_fields` maps the display output
key to the synthesized read-only `CharField` sourced at the display
attribute. -/
theorem c2_display_char_field_added (m : ModelMeta)
    (cfg : ComplexPKRelatedField.Config) (d : String)
    (hd : cfg.display_field = some d) (hne : d ≠ "")
    (hnm : d ∉ cfg.extra_fields)
    (hdfn : cfg.display_field_name ∉ cfg.extra_fields) :
    pyGet (ComplexPKRelatedField.get_fields m cfg) cfg.display_field_name =
      some (ComplexPKRelatedField.displayCharField d) := by
  rw [ComplexPKRelatedField.get_fields,
    addExtraFields_pyGet_not_mem _ _ _ _ _ hdfn]
  simp only [hd]
  rw [if_pos ⟨hne, hnm⟩]
  exact pyGet_pySet_self _ _ _

/-- C2 witness: `display_field="name"`, display key `"label"`, no extra
fields: the synthesized CharField appears under `"label"`. -/
theorem c2_witness :
    pyGet (ComplexPKRelatedField.get_fields modelC2w cfgC2w) "label" =
      some (ComplexPKRelatedField.displayCharField "name") :=
  c2_display_char_field_added modelC2w cfgC2w "name" rfl (by decide) (by decide)
    (by decide)

/-- C8: the `fields` accessor of `ComplexPKRelatedField` is cached: starting
from a fresh instance, the underlying computation runs exactly once, and a
second access returns the identical stored mapping and leaves the state
unchanged. -/
theorem c8_fields_cached_once (m : ModelMeta) (cfg : ComplexPKRelatedField.Config) :
    (ComplexPKRelatedField.fieldsAccess m cfg
        (ComplexPKRelatedField.fieldsAccess m cfg ComplexPKRelatedField.freshCache).2).1 =
      (ComplexPKRelatedField.fieldsAccess m cfg ComplexPKRelatedField.freshCache).1
    ∧ (ComplexPKRelatedField.fieldsAccess m cfg
        (ComplexPKRelatedField.fieldsAccess m cfg ComplexPKRelatedField.freshCache).2).2 =
      (ComplexPKRelatedField.fieldsAccess m cfg ComplexPKRelatedField.freshCache).2
    ∧ (ComplexPKRelatedField.fieldsAccess m cfg ComplexPKRelatedField.freshCache).2.computeCount = 1
    ∧ (ComplexPKRelatedField.fieldsAccess m cfg
        (ComplexPKRelatedField.fieldsAccess m cfg ComplexPKRelatedField.freshCache).2).2.computeCount = 1 := by
  simp [ComplexPKRelatedField.fieldsAccess, ComplexPKRelatedField.freshCache]

/-- C9: a requested extra attribute name that is not a field of the related
model's metadata is silently skipped by `get_fields` (which is a total
function — `FieldDoesNotExist` is caught): no entry appears under that name
(`f ≠ display_field_name` excludes the unrelated display entry, which the
display step may place under its own key). -/
theorem c9_unknown_extra_skipped (m : ModelMeta)
    (cfg : ComplexPKRelatedField.Config) (f : String)
    (hmem : f ∈ cfg.extra_fields) (hunk : metaGetField m f = Option.none)
    (hdfn : f ≠ cfg.display_field_name) :
    pyGet (ComplexPKRelatedField.get_fields m cfg) f = Option.none := by
  rw [ComplexPKRelatedField.get_fields,
    addExtraFields_pyGet_unknown _ _ _ _ _ hunk]
  cases hdf : cfg.display_field with
  | none => rfl
  | some d =>
    show pyGet (if d ≠ "" ∧ d ∉ cfg.extra_fields then
        pySet [] cfg.display_field_name (ComplexPKRelatedField.displayCharField d)
      else []) f = Option.none
    by_cases hcond : d ≠ "" ∧ d ∉ cfg.extra_fields
    · rw [if_pos hcond, pyGet_pySet_other _ _ _ _ hdfn]
      rfl
    · rw [if_neg hcond]
      rfl

/-- C9 witness: requesting the unknown attribute `"ghost"` yields a mapping
with no entry under `"ghost"`. -/
theorem c9_witness :
    pyGet (ComplexPKRelatedField.get_fields modelC9w cfgC9w) "ghost" = Option.none :=
  c9_unknown_extra_skipped modelC9w cfgC9w "ghost" (by decide) rfl (by decide)

/-- C10: `ComplexPKRelatedField.to_internal_value` on a mapping that lacks
the primary-key field under `pk_field_name` raises `KeyError` uncaught
(never a framework validation error); only the `TypeError` of subscripting a
bare value is suppressed, the bare value being delegated to the base field's
resolution. -/
theorem c10_internal_value_keyerror {α : Type} (pk : String)
    (base : PyVal → Except PyExc α) :
    (∀ entries : PyAssoc PyVal, pyGet entries pk = Option.none →
        ComplexPKRelatedField.to_internal_value pk base (.mapping entries) =
          Except.error (PyExc.keyError pk))
    ∧ (∀ entries v, pyGet entries pk = some v →
        ComplexPKRelatedField.to_internal_value pk base (.mapping entries) = base v)
    ∧ (∀ v, ComplexPKRelatedField.to_internal_value pk base (.bare v) = base v) := by
  refine ⟨fun entries h => ?_, fun entries v h => ?_, fun v => rfl⟩
  · simp [ComplexPKRelatedField.to_internal_value, h]
  · simp [ComplexPKRelatedField.to_internal_value, h]

/-- C10 witness: the mapping `{"x": 1}` without key `"id"` raises
`KeyError("id")`; the bare value 5 is delegated to the base field. -/
theorem c10_witness :
    ComplexPKRelatedField.to_internal_value "id" baseC10w
      (.mapping [("x", PyVal.int 1)]) = Except.error (PyExc.keyError "id")
    ∧ ComplexPKRelatedField.to_internal_value "id" baseC10w
        (.bare (PyVal.int 5)) = baseC10w (PyVal.int 5) :=
  ⟨(c10_internal_value_keyerror "id" baseC10w).1 [("x", PyVal.int 1)] (by decide),
   (c10_internal_value_keyerror "id" baseC10w).2.2 (PyVal.int 5)⟩

/-- C5 counterexample: with `pk_field_name="key"` and `fields=["key"]`, the
extra-attributes loop overwrites the resolved primary key (7) with the
object's `key` attribute (42), so the output does not contain the resolved
primary key under `pk_field_name`. -/
theorem c5_counterexample :
    ComplexPKRelatedField.to_representation cfgC5x (Except.ok objC5x) objC5x =
      Except.ok dC5x
    ∧ pyGet dC5x cfgC5x.pk_field_name = some (PyVal.int 42)
    ∧ objC5x.pk = PyVal.int 7
    ∧ pyGet dC5x cfgC5x.pk_field_name ≠ some objC5x.pk :=
  ⟨rfl, by decide, rfl, by decide⟩

/-- C5 (amended): when `to_representation` succeeds and `pk_field_name` is
neither among the extra attribute names (which would overwrite it) nor equal
to the display output key, the output maps `pk_field_name` to the resolved
primary key, each extra attribute name to that attribute of the resolved
object, and — when the display output key is not covered by the extra field
names — the display key to the configured display attribute's value, or to
the object's `str` form when no (truthy) display attribute is configured. -/
theorem c5_outbound_mapping (cfg : ComplexPKRelatedField.Config)
    (il : Except Unit PyObj) (value : PyObj) (d : PyAssoc PyVal)
    (hres : ComplexPKRelatedField.to_representation cfg il value = Except.ok d)
    (hpk1 : cfg.pk_field_name ∉ cfg.extra_fields)
    (hpk2 : cfg.pk_field_name ≠ cfg.display_field_name) :
    pyGet d cfg.pk_field_name = some value.pk
    ∧ (∀ f ∈ cfg.extra_fields,
        pyGet d f = pyGetattr (ComplexPKRelatedField.resolveAttrObj il value) f)
    ∧ (cfg.display_field_name ∉ cfg.extra_fields →
        (∀ dd, cfg.display_field = some dd → dd ≠ "" →
          pyGet d cfg.display_field_name =
            pyGetattr (ComplexPKRelatedField.resolveAttrObj il value) dd)
        ∧ ((cfg.display_field = Option.none ∨ cfg.display_field = some "") →
          pyGet d cfg.display_field_name =
            some (PyVal.str (ComplexPKRelatedField.resolveAttrObj il value).strForm))) := by
  rw [ComplexPKRelatedField.to_representation] at hres
  cases hds : ComplexPKRelatedField.displayStep cfg
      (ComplexPKRelatedField.resolveAttrObj il value)
      (pySet [] cfg.pk_field_name (ComplexPKRelatedField.pk_to_representation value)) with
  | error e => rw [hds] at hres; cases hres
  | ok d2 =>
    rw [hds] at hres
    refine ⟨?_, ?_, ?_⟩
    · rw [setExtraAttrs_pyGet_not_mem _ _ _ _ hres _ hpk1,
        displayStep_pyGet_other _ _ _ _ hds _ hpk2,
        pyGet_pySet_self]
      rfl
    · intro f hf
      exact setExtraAttrs_pyGet_mem _ _ _ _ hres f hf
    · intro hdfn
      have hdisp := displayStep_pyGet_display _ _ _ _ hds hdfn
      constructor
      · intro dd hdf hdd
        rw [setExtraAttrs_pyGet_not_mem _ _ _ _ hres _ hdfn]
        exact hdisp.1 dd hdf hdd
      · intro hdf
        rw [setExtraAttrs_pyGet_not_mem _ _ _ _ hres _ hdfn]
        exact hdisp.2 hdf

/-- C5 witness: `fields=["name", "status"]`, no explicit display field,
object with primary key 3 and `str` form `"Obj3"`: the output has keys
`id`, `label`, `name`, `status`, with `label` the object's `str` form. -/
theorem c5_witness :
    pyGet dC5w "id" = some objC5w.pk
    ∧ pyGet dC5w "name" = pyGetattr objC5w "name"
    ∧ pyGet dC5w "status" = pyGetattr objC5w "status"
    ∧ pyGet dC5w "label" = some (PyVal.str objC5w.strForm) := by
  have h := c5_outbound_mapping cfgC5w (Except.ok objC5w) objC5w dC5w rfl
    (by decide) (by decide)
  exact ⟨h.1, h.2.1 "name" (by decide), h.2.1 "status" (by decide),
    (h.2.2 (by decide)).2 (Or.inl rfl)⟩

end Drfexts
